import Mathlib

/-!
Shallow embedding of the shift-report parser in `src/main.py`.

The program's core is `parse_report`, which runs seven regular-expression
searches over the raw message text (date, vehicle, start time, end time,
overtime, total distance, MKAD distance), converts the captured substrings
(`datetime.strptime` for the date and the two clock times, `float` for the
numeric groups), derives `work_hours` and `overtime`, and returns either
`(record, None)` or `(None, errorMessage)`.

Python's `re.search` semantics are modelled pattern by pattern: a search
scans start positions left to right; at each position alternatives are
tried in source order, greedy quantifiers longest first, with backtracking.
Each quantifier here is a run of a single character class, so the set of
ways it can match is exactly the set of prefixes of the maximal run; we
enumerate those candidates longest first and take the first one whose
continuation succeeds, which reproduces the backtracking order exactly.
Python floats are modelled as exact rationals (`ℚ`): every numeric value in
the program is derived from small decimal integers, minutes and hours.
-/

deriving instance DecidableEq for Except

namespace ShiftReport

/-- Digit class `\d` restricted to the ASCII digits the report format uses. -/
def isDig (c : Char) : Bool := '0' ≤ c && c ≤ '9'

/-- Whitespace class `\s` (space, tab, newline, carriage return,
vertical tab, form feed). -/
def isSpace (c : Char) : Bool :=
  c = ' ' || c = '\t' || c = '\n' || c = '\r' || c = '\x0b' || c = '\x0c'

/-- Match a literal string at the head of the input; return the rest. -/
def matchLit : List Char → List Char → Option (List Char)
  | [], cs => some cs
  | _ :: _, [] => none
  | l :: ls, c :: cs => if c = l then matchLit ls cs else none

/-- All ways a greedy `p+` can match at the head of `cs`: the remaining
inputs after consuming `k` class characters, for `k` from the maximal run
length down to `1` (longest first, as backtracking tries them). -/
def splitsPlus (p : Char → Bool) (cs : List Char) : List (List Char) :=
  let L := (cs.takeWhile p).length
  (List.range L).map fun i => cs.drop (L - i)

/-- All ways a greedy `p*` can match at the head of `cs`, longest first,
including consuming nothing. -/
def splitsStar (p : Char → Bool) (cs : List Char) : List (List Char) :=
  let L := (cs.takeWhile p).length
  (List.range (L + 1)).map fun i => cs.drop (L - i)

/-- All ways a greedy capturing `(p+)` can match at the head of `cs`:
pairs (captured run, rest), longest capture first. -/
def splitsPlusCap (p : Char → Bool) (cs : List Char) : List (List Char × List Char) :=
  let L := (cs.takeWhile p).length
  (List.range L).map fun i => (cs.take (L - i), cs.drop (L - i))

/-- Python `re.search`: try the position matcher `f` at every start position,
left to right (including the empty suffix), returning the first success. -/
def searchWith (f : List Char → Option α) : List Char → Option α
  | [] => f []
  | c :: cs => (f (c :: cs)).orElse fun _ => searchWith f cs

/-- Pattern `DATE_PATTERN = (\d{2}\.\d{2}\.\d{4})` matched at the current
position; returns the ten captured characters. -/
def tryDate : List Char → Option (List Char)
  | d1 :: d2 :: s1 :: m1 :: m2 :: s2 :: y1 :: y2 :: y3 :: y4 :: _ =>
    if isDig d1 && isDig d2 && s1 = '.' && isDig m1 && isDig m2 && s2 = '.' &&
       isDig y1 && isDig y2 && isDig y3 && isDig y4 then
      some [d1, d2, s1, m1, m2, s2, y1, y2, y3, y4]
    else none
  | _ => none

/-- Shape `\d{2}:\d{2}` matched at the current position (the time value shape
shared by the start and end patterns); returns the five captured characters. -/
def tryTimeVal : List Char → Option (List Char)
  | h1 :: h2 :: s :: m1 :: m2 :: _ =>
    if isDig h1 && isDig h2 && s = ':' && isDig m1 && isDig m2 then
      some [h1, h2, s, m1, m2]
    else none
  | _ => none

/-- Pattern `VEHICLE_PATTERN = (?:ТС|Смена|Наименование ТС)\s+([^\n]+)` matched at
the current position: alternatives in source order, `\s+` longest first,
then a nonempty greedy run of non-newline characters as the capture. -/
def tryVehicle (cs : List Char) : Option (List Char) :=
  ["ТС".data, "Смена".data, "Наименование ТС".data].findSome? fun lab =>
    (matchLit lab cs).bind fun rest =>
      (splitsPlus isSpace rest).findSome? fun r =>
        let cap := r.takeWhile fun c => c ≠ '\n'
        if cap.isEmpty then none else some cap

/-- A labelled `\s+(\d{2}:\d{2})` matcher: used for
`START_PATTERN = (?:Начало смены|Начало)\s+(\d{2}:\d{2})` and
`END_PATTERN = (?:Окончание смены|Конец смены|Окончание)\s+(\d{2}:\d{2})`. -/
def tryLabeledTime (labels : List (List Char)) (cs : List Char) : Option (List Char) :=
  labels.findSome? fun lab =>
    (matchLit lab cs).bind fun rest =>
      (splitsPlus isSpace rest).findSome? tryTimeVal

/-- A labelled `\s+(\d+)` matcher: used for
`KM_PATTERN = (?:Общий пробег|Пробег общий)\s+(\d+)` and
`KM_MKAD_PATTERN = (?:Пробег за МКАД)\s+(\d+)`; returns the digit capture. -/
def tryLabeledNum (labels : List (List Char)) (cs : List Char) : Option (List Char) :=
  labels.findSome? fun lab =>
    (matchLit lab cs).bind fun rest =>
      (splitsPlus isSpace rest).findSome? fun r =>
        (splitsPlusCap isDig r).findSome? fun dr => some dr.1

/-- Pattern `OVERTIME_PATTERN = (?:Переработка|Переработки)\s+(\d+)(?:\s*(\d+))?`
matched at the current position: returns the mandatory hours capture and
the optional minutes capture. The optional group prefers matching
(`\s*` longest first, then a digit run) and falls back to absent. -/
def tryOvertime (cs : List Char) : Option (List Char × Option (List Char)) :=
  ["Переработка".data, "Переработки".data].findSome? fun lab =>
    (matchLit lab cs).bind fun rest =>
      (splitsPlus isSpace rest).findSome? fun r1 =>
        (splitsPlusCap isDig r1).findSome? fun hr =>
          match (splitsStar isSpace hr.2).findSome? fun r2 =>
              (splitsPlusCap isDig r2).findSome? fun mr => some mr.1 with
          | some m => some (hr.1, some m)
          | none => some (hr.1, none)

def searchDate : List Char → Option (List Char) := searchWith tryDate

def searchVehicle : List Char → Option (List Char) := searchWith tryVehicle

def searchStart : List Char → Option (List Char) :=
  searchWith (tryLabeledTime ["Начало смены".data, "Начало".data])

def searchEnd : List Char → Option (List Char) :=
  searchWith (tryLabeledTime ["Окончание смены".data, "Конец смены".data, "Окончание".data])

def searchOvertime : List Char → Option (List Char × Option (List Char)) :=
  searchWith tryOvertime

def searchKm : List Char → Option (List Char) :=
  searchWith (tryLabeledNum ["Общий пробег".data, "Пробег общий".data])

def searchKmMkad : List Char → Option (List Char) :=
  searchWith (tryLabeledNum ["Пробег за МКАД".data])

/-- Numeric value of a digit character. -/
def digVal (c : Char) : Nat := c.toNat - 48

/-- Numeric value of a decimal digit string (`float` / `int` on an all-digit
capture, which never fails in Python). -/
def digitsToNat (l : List Char) : Nat := l.foldl (fun n c => n * 10 + digVal c) 0

/-- Python `str.strip()`: remove leading and trailing whitespace. -/
def strip (l : List Char) : List Char :=
  ((l.dropWhile isSpace).reverse.dropWhile isSpace).reverse

structure Date where
  y : Nat
  m : Nat
  d : Nat
deriving DecidableEq, Repr

def isLeap (y : Nat) : Bool := y % 4 = 0 && (y % 100 ≠ 0 || y % 400 = 0)

def daysInMonth (y m : Nat) : Nat :=
  if m = 2 then (if isLeap y then 29 else 28)
  else if m = 4 || m = 6 || m = 9 || m = 11 then 30
  else 31

/-- Model of `datetime.strptime(s, "%d.%m.%Y").date()` on a ten-character capture
`DD.MM.YYYY`.  CPython's strptime regex for a two-digit `%d` admits 01–31
and for `%m` admits 01–12 (otherwise `ValueError: time data ... does not
match format`); `datetime.date` then rejects year 0 and a day beyond the
month's length, with the messages reproduced here. -/
def parseDate (s : List Char) : Except String Date :=
  match s with
  | [d1, d2, _, m1, m2, _, y1, y2, y3, y4] =>
    let d := digVal d1 * 10 + digVal d2
    let m := digVal m1 * 10 + digVal m2
    let y := digVal y1 * 1000 + digVal y2 * 100 + digVal y3 * 10 + digVal y4
    if 1 ≤ d && d ≤ 31 && 1 ≤ m && m ≤ 12 then
      if y = 0 then .error "year 0 is out of range"
      else if d ≤ daysInMonth y m then .ok ⟨y, m, d⟩
      else .error "day is out of range for month"
    else
      .error ("time data '" ++ String.mk s ++ "' does not match format '%d.%m.%Y'")
  | _ => .error ("time data '" ++ String.mk s ++ "' does not match format '%d.%m.%Y'")

/-- Model of `datetime.strptime(s, "%H:%M").time()` on a five-character capture
`HH:MM`. CPython's strptime format regex is `(2[0-3]|[0-1]\d|\d):([0-5]\d|\d)`,
matched as a prefix. A two-digit hour not in 00–23 makes the whole regex fail
(`%H` falls back to its single-digit branch, after which `:` meets the second
hour digit), raising `ValueError: time data ... does not match format '%H:%M'`.
With a valid hour and minutes 60–99, `%M`'s single-digit branch consumes only
the first minute digit, the match stops one character short of the end, and
strptime raises `ValueError: unconverted data remains: ` followed by the last
minute digit. Otherwise the time is built. Returns (hours, minutes). -/
def parseTime (s : List Char) : Except String (Nat × Nat) :=
  match s with
  | [h1, h2, _, m1, m2] =>
    let h := digVal h1 * 10 + digVal h2
    let m := digVal m1 * 10 + digVal m2
    if h ≤ 23 then
      if m ≤ 59 then .ok (h, m)
      else .error ("unconverted data remains: " ++ String.mk [m2])
    else .error ("time data '" ++ String.mk s ++ "' does not match format '%H:%M'")
  | _ => .error ("time data '" ++ String.mk s ++ "' does not match format '%H:%M'")

/-- Zero-padded two-digit decimal rendering. -/
def pad2 (n : Nat) : String := if n < 10 then "0" ++ toString n else toString n

/-- Zero-padded four-digit decimal rendering (for the year in `str(date)`). -/
def pad4 (n : Nat) : String :=
  if n < 10 then "000" ++ toString n
  else if n < 100 then "00" ++ toString n
  else if n < 1000 then "0" ++ toString n
  else toString n

/-- Rendering `str(report_date)`: ISO `YYYY-MM-DD`. -/
def dateToStr (d : Date) : String := pad4 d.y ++ "-" ++ pad2 d.m ++ "-" ++ pad2 d.d

/-- Rendering `str(time)`: `HH:MM:SS` with seconds zero. -/
def timeToStr (t : Nat × Nat) : String := pad2 t.1 ++ ":" ++ pad2 t.2 ++ ":00"

/-- Value `float(overtime_match.group(2)) if overtime_match.group(2) else 0`:
the minutes part of the overtime, `0` when the optional group is absent. -/
def optMinutes : Option (List Char) → ℚ
  | some m => (digitsToNat m : ℚ)
  | none => 0

/-- Value `overtime = hours + minutes / 60`. -/
def overtimeVal (h : List Char) (m : Option (List Char)) : ℚ :=
  (digitsToNat h : ℚ) + optMinutes m / 60

/-- Value `work_hours = (end_dt - start_dt).total_seconds() / 3600`: both datetimes
share `report_date`, so this is the signed minute difference divided by 60. -/
def workHours (st et : Nat × Nat) : ℚ :=
  ((((et.1 * 60 + et.2 : ℕ) : ℤ) - ((st.1 * 60 + st.2 : ℕ) : ℤ) : ℤ) : ℚ) / 60

/-- Value `km_mkad = float(km_mkad_match.group(1)) if km_mkad_match else 0`. -/
def mkadVal (cs : List Char) : ℚ :=
  match searchKmMkad cs with
  | some s => (digitsToNat s : ℚ)
  | none => 0

/-- The dictionary assembled by `parse_report` on success. -/
structure Report where
  date : String
  vehicle : String
  start_time : String
  end_time : String
  work_hours : ℚ
  overtime : ℚ
  total_km : ℚ
  km_mkad : ℚ
deriving DecidableEq, Repr

/-- Function `parse_report` from `src/main.py`: the seven searches in source order,
short-circuiting with the source's Russian error message on the first
missing required field; `strptime` failures surface their diagnostic via
the enclosing `try/except`.  `work_hours` is
`(end_dt - start_dt).total_seconds() / 3600` with both datetimes on the
same calendar date, i.e. the signed minute difference divided by 60. -/
def parse_report (report_text : String) : Option Report × Option String :=
  let cs := report_text.data
  match searchDate cs with
  | none => (none, some "Не найдена дата")
  | some dateStr =>
    match parseDate dateStr with
    | .error e => (none, some e)
    | .ok rd =>
      match searchVehicle cs with
      | none => (none, some "Не найдено наименование ТС")
      | some vraw =>
        match searchStart cs with
        | none => (none, some "Не найдено время начала")
        | some ss =>
          match parseTime ss with
          | .error e => (none, some e)
          | .ok st =>
            match searchEnd cs with
            | none => (none, some "Не найдено время окончания")
            | some es =>
              match parseTime es with
              | .error e => (none, some e)
              | .ok et =>
                match searchOvertime cs with
                | none => (none, some "Не найдена переработка")
                | some ov =>
                  match searchKm cs with
                  | none => (none, some "Не найден общий пробег")
                  | some kmStr =>
                    (some {
                      date := dateToStr rd
                      vehicle := String.mk (strip vraw)
                      start_time := timeToStr st
                      end_time := timeToStr et
                      work_hours := workHours st et
                      overtime := overtimeVal ov.1 ov.2
                      total_km := (digitsToNat kmStr : ℚ)
                      km_mkad := mkadVal cs }, none)

/-! ### The six required fields, in extraction order -/

/-- The six required fields, in the order `parse_report` extracts them
(`stop` is the end-of-shift time; `end` is a keyword). -/
inductive Field where
  | date
  | vehicle
  | start
  | stop
  | overtime
  | totalKm
deriving DecidableEq, Fintype, Repr

/-- Position of a required field in the extraction order. -/
def fieldIdx : Field → Nat
  | .date => 0
  | .vehicle => 1
  | .start => 2
  | .stop => 3
  | .overtime => 4
  | .totalKm => 5

/-- The field's extractor finds a match and, for the date and the two clock
times, the secondary conversion succeeds. -/
def foundValid : Field → List Char → Prop
  | .date, cs => ∃ ds d, searchDate cs = some ds ∧ parseDate ds = .ok d
  | .vehicle, cs => ∃ v, searchVehicle cs = some v
  | .start, cs => ∃ ts t, searchStart cs = some ts ∧ parseTime ts = .ok t
  | .stop, cs => ∃ ts t, searchEnd cs = some ts ∧ parseTime ts = .ok t
  | .overtime, cs => ∃ ov, searchOvertime cs = some ov
  | .totalKm, cs => ∃ km, searchKm cs = some km

/-- The field's extractor finds no match in the text. -/
def missingF : Field → List Char → Prop
  | .date, cs => searchDate cs = none
  | .vehicle, cs => searchVehicle cs = none
  | .start, cs => searchStart cs = none
  | .stop, cs => searchEnd cs = none
  | .overtime, cs => searchOvertime cs = none
  | .totalKm, cs => searchKm cs = none

/-- The Russian error message `parse_report` returns for each missing field. -/
def errMsg : Field → String
  | .date => "Не найдена дата"
  | .vehicle => "Не найдено наименование ТС"
  | .start => "Не найдено время начала"
  | .stop => "Не найдено время окончания"
  | .overtime => "Не найдена переработка"
  | .totalKm => "Не найден общий пробег"

instance missingFDecidable : (f : Field) → (cs : List Char) → Decidable (missingF f cs)
  | .date, cs => inferInstanceAs (Decidable (searchDate cs = none))
  | .vehicle, cs => inferInstanceAs (Decidable (searchVehicle cs = none))
  | .start, cs => inferInstanceAs (Decidable (searchStart cs = none))
  | .stop, cs => inferInstanceAs (Decidable (searchEnd cs = none))
  | .overtime, cs => inferInstanceAs (Decidable (searchOvertime cs = none))
  | .totalKm, cs => inferInstanceAs (Decidable (searchKm cs = none))

/-! ### The bare-token reading of the date extractor -/

/-- A `DD.MM.YYYY`-shaped token starts at position `n` of `cs` and is bare:
the character before it (when any) and the character after it (when any)
are not digits, so the shape is not embedded in a longer digit run. This is
the reading of the specification sentence under examination; the extractor
itself is `searchDate`. -/
def bareDateAt (cs : List Char) (n : Nat) : Bool :=
  (tryDate (cs.drop n)).isSome &&
    (n = 0 || !isDig (cs.getD (n - 1) '.')) &&
    !isDig (cs.getD (n + 10) '.')

/-- The text contains a bare `DD.MM.YYYY` token at some position. -/
def hasBareDateToken (cs : List Char) : Bool :=
  (List.range cs.length).any fun n => bareDateAt cs n

/-! ### Concrete report texts used as witnesses -/

/-- The specification section 8 example report. -/
def exFull : String :=
  "15.03.2024\nТС Газель\nНачало смены 08:00\nОкончание смены 16:30\nПереработка 1 15\nОбщий пробег 120\nПробег за МКАД 40"

/-- A report whose end time is numerically earlier than its start time. -/
def exOvernight : String :=
  "15.03.2024\nТС Газель\nНачало смены 22:00\nОкончание смены 02:00\nПереработка 1 15\nОбщий пробег 120"

/-- A valid report with no MKAD-distance line. -/
def exNoMkad : String :=
  "15.03.2024\nТС Газель\nНачало смены 08:00\nОкончание смены 16:30\nПереработка 1 15\nОбщий пробег 120"

/-- A valid report whose overtime line carries hours only. -/
def exOtA : String :=
  "15.03.2024\nТС Газель\nНачало смены 08:00\nОкончание смены 16:30\nПереработка 2\nОбщий пробег 120"

/-- A valid report whose overtime line carries hours and minutes. -/
def exOtB : String :=
  "15.03.2024\nТС Газель\nНачало смены 08:00\nОкончание смены 16:30\nПереработка 2 30\nОбщий пробег 120"

/-- A report whose start time has a valid shape but an impossible value. -/
def exBadStart : String :=
  "15.03.2024\nТС Газель\nНачало смены 25:99\nОкончание смены 16:30\nПереработка 1 15\nОбщий пробег 120"

/-- The specification example with the total-distance line removed. -/
def exNoKm : String :=
  "15.03.2024\nТС Газель\nНачало смены 08:00\nОкончание смены 16:30\nПереработка 1 15\nПробег за МКАД 40"

/-- A report missing both its start-time line and its total-distance line. -/
def exMissingTwo : String :=
  "15.03.2024\nТС Газель\nОкончание смены 16:30\nПереработка 1 15"

/-- The specification example with the MKAD value replaced by a non-integer. -/
def exMkadBad : String :=
  "15.03.2024\nТС Газель\nНачало смены 08:00\nОкончание смены 16:30\nПереработка 1 15\nОбщий пробег 120\nПробег за МКАД abc"

/-! ### Path lemmas for `parse_report` -/

/-- The success path: when every search finds a match and every secondary
conversion succeeds, `parse_report` returns the assembled record and a null
error. -/
lemma parse_report_success (s : String) (ds : List Char) (d : Date)
    (vraw ss : List Char) (st : Nat × Nat) (es : List Char) (et : Nat × Nat)
    (hStr : List Char) (mOpt : Option (List Char)) (kmStr : List Char)
    (h1 : searchDate s.data = some ds) (h2 : parseDate ds = .ok d)
    (h3 : searchVehicle s.data = some vraw)
    (h4 : searchStart s.data = some ss) (h5 : parseTime ss = .ok st)
    (h6 : searchEnd s.data = some es) (h7 : parseTime es = .ok et)
    (h8 : searchOvertime s.data = some (hStr, mOpt))
    (h9 : searchKm s.data = some kmStr) :
    parse_report s = (some {
      date := dateToStr d
      vehicle := String.mk (strip vraw)
      start_time := timeToStr st
      end_time := timeToStr et
      work_hours := workHours st et
      overtime := overtimeVal hStr mOpt
      total_km := (digitsToNat kmStr : ℚ)
      km_mkad := mkadVal s.data }, none) := by
  simp only [parse_report, h1, h2, h3, h4, h5, h6, h7, h8, h9]

lemma parse_report_noDate (s : String) (h1 : searchDate s.data = none) :
    parse_report s = (none, some "Не найдена дата") := by
  simp only [parse_report, h1]

lemma parse_report_badDate (s : String) (ds : List Char) (e : String)
    (h1 : searchDate s.data = some ds) (h2 : parseDate ds = .error e) :
    parse_report s = (none, some e) := by
  simp only [parse_report, h1, h2]

lemma parse_report_noVehicle (s : String) (ds : List Char) (d : Date)
    (h1 : searchDate s.data = some ds) (h2 : parseDate ds = .ok d)
    (h3 : searchVehicle s.data = none) :
    parse_report s = (none, some "Не найдено наименование ТС") := by
  simp only [parse_report, h1, h2, h3]

lemma parse_report_noStart (s : String) (ds : List Char) (d : Date) (vraw : List Char)
    (h1 : searchDate s.data = some ds) (h2 : parseDate ds = .ok d)
    (h3 : searchVehicle s.data = some vraw)
    (h4 : searchStart s.data = none) :
    parse_report s = (none, some "Не найдено время начала") := by
  simp only [parse_report, h1, h2, h3, h4]

lemma parse_report_badStart (s : String) (ds : List Char) (d : Date)
    (vraw ss : List Char) (e : String)
    (h1 : searchDate s.data = some ds) (h2 : parseDate ds = .ok d)
    (h3 : searchVehicle s.data = some vraw)
    (h4 : searchStart s.data = some ss) (h5 : parseTime ss = .error e) :
    parse_report s = (none, some e) := by
  simp only [parse_report, h1, h2, h3, h4, h5]

lemma parse_report_noEnd (s : String) (ds : List Char) (d : Date)
    (vraw ss : List Char) (st : Nat × Nat)
    (h1 : searchDate s.data = some ds) (h2 : parseDate ds = .ok d)
    (h3 : searchVehicle s.data = some vraw)
    (h4 : searchStart s.data = some ss) (h5 : parseTime ss = .ok st)
    (h6 : searchEnd s.data = none) :
    parse_report s = (none, some "Не найдено время окончания") := by
  simp only [parse_report, h1, h2, h3, h4, h5, h6]

lemma parse_report_badEnd (s : String) (ds : List Char) (d : Date)
    (vraw ss : List Char) (st : Nat × Nat) (es : List Char) (e : String)
    (h1 : searchDate s.data = some ds) (h2 : parseDate ds = .ok d)
    (h3 : searchVehicle s.data = some vraw)
    (h4 : searchStart s.data = some ss) (h5 : parseTime ss = .ok st)
    (h6 : searchEnd s.data = some es) (h7 : parseTime es = .error e) :
    parse_report s = (none, some e) := by
  simp only [parse_report, h1, h2, h3, h4, h5, h6, h7]

lemma parse_report_noOvertime (s : String) (ds : List Char) (d : Date)
    (vraw ss : List Char) (st : Nat × Nat) (es : List Char) (et : Nat × Nat)
    (h1 : searchDate s.data = some ds) (h2 : parseDate ds = .ok d)
    (h3 : searchVehicle s.data = some vraw)
    (h4 : searchStart s.data = some ss) (h5 : parseTime ss = .ok st)
    (h6 : searchEnd s.data = some es) (h7 : parseTime es = .ok et)
    (h8 : searchOvertime s.data = none) :
    parse_report s = (none, some "Не найдена переработка") := by
  simp only [parse_report, h1, h2, h3, h4, h5, h6, h7, h8]

lemma parse_report_noKm (s : String) (ds : List Char) (d : Date)
    (vraw ss : List Char) (st : Nat × Nat) (es : List Char) (et : Nat × Nat)
    (ov : List Char × Option (List Char))
    (h1 : searchDate s.data = some ds) (h2 : parseDate ds = .ok d)
    (h3 : searchVehicle s.data = some vraw)
    (h4 : searchStart s.data = some ss) (h5 : parseTime ss = .ok st)
    (h6 : searchEnd s.data = some es) (h7 : parseTime es = .ok et)
    (h8 : searchOvertime s.data = some ov)
    (h9 : searchKm s.data = none) :
    parse_report s = (none, some "Не найден общий пробег") := by
  simp only [parse_report, h1, h2, h3, h4, h5, h6, h7, h8, h9]

/-- Core short-circuit fact: if every field before `f` in extraction order is
found with a valid value and `f`'s extractor finds nothing, `parse_report`
stops at `f` with `f`'s message. -/
lemma parse_first_missing (s : String) (f : Field)
    (hm : missingF f s.data)
    (hv : ∀ g : Field, fieldIdx g < fieldIdx f → foundValid g s.data) :
    parse_report s = (none, some (errMsg f)) := by
  cases f with
  | date => exact parse_report_noDate s hm
  | vehicle =>
    obtain ⟨ds, d, h1, h2⟩ := hv .date (by decide)
    exact parse_report_noVehicle s ds d h1 h2 hm
  | start =>
    obtain ⟨ds, d, h1, h2⟩ := hv .date (by decide)
    obtain ⟨v, h3⟩ := hv .vehicle (by decide)
    exact parse_report_noStart s ds d v h1 h2 h3 hm
  | stop =>
    obtain ⟨ds, d, h1, h2⟩ := hv .date (by decide)
    obtain ⟨v, h3⟩ := hv .vehicle (by decide)
    obtain ⟨ss, st, h4, h5⟩ := hv .start (by decide)
    exact parse_report_noEnd s ds d v ss st h1 h2 h3 h4 h5 hm
  | overtime =>
    obtain ⟨ds, d, h1, h2⟩ := hv .date (by decide)
    obtain ⟨v, h3⟩ := hv .vehicle (by decide)
    obtain ⟨ss, st, h4, h5⟩ := hv .start (by decide)
    obtain ⟨es, et, h6, h7⟩ := hv .stop (by decide)
    exact parse_report_noOvertime s ds d v ss st es et h1 h2 h3 h4 h5 h6 h7 hm
  | totalKm =>
    obtain ⟨ds, d, h1, h2⟩ := hv .date (by decide)
    obtain ⟨v, h3⟩ := hv .vehicle (by decide)
    obtain ⟨ss, st, h4, h5⟩ := hv .start (by decide)
    obtain ⟨es, et, h6, h7⟩ := hv .stop (by decide)
    obtain ⟨ov, h8⟩ := hv .overtime (by decide)
    exact parse_report_noKm s ds d v ss st es et ov h1 h2 h3 h4 h5 h6 h7 h8 hm

/-! ### Inversion of the success path -/

/-- If `parse_report` returned a record, every search matched, every
conversion succeeded, and the record is the assembled one. -/
lemma parse_report_success_inv (s : String) (r : Report)
    (h : parse_report s = (some r, none)) :
    ∃ ds d vraw ss st es et hStr mOpt kmStr,
      searchDate s.data = some ds ∧ parseDate ds = .ok d ∧
      searchVehicle s.data = some vraw ∧
      searchStart s.data = some ss ∧ parseTime ss = .ok st ∧
      searchEnd s.data = some es ∧ parseTime es = .ok et ∧
      searchOvertime s.data = some (hStr, mOpt) ∧
      searchKm s.data = some kmStr ∧
      r = { date := dateToStr d
            vehicle := String.mk (strip vraw)
            start_time := timeToStr st
            end_time := timeToStr et
            work_hours := workHours st et
            overtime := overtimeVal hStr mOpt
            total_km := (digitsToNat kmStr : ℚ)
            km_mkad := mkadVal s.data } := by
  rcases hd : searchDate s.data with _ | ds
  · rw [parse_report_noDate s hd] at h; exact absurd h (by simp)
  rcases hpd : parseDate ds with e | d
  · rw [parse_report_badDate s ds e hd hpd] at h; exact absurd h (by simp)
  rcases hv : searchVehicle s.data with _ | vraw
  · rw [parse_report_noVehicle s ds d hd hpd hv] at h; exact absurd h (by simp)
  rcases hs : searchStart s.data with _ | ss
  · rw [parse_report_noStart s ds d vraw hd hpd hv hs] at h; exact absurd h (by simp)
  rcases hps : parseTime ss with e | st
  · rw [parse_report_badStart s ds d vraw ss e hd hpd hv hs hps] at h
    exact absurd h (by simp)
  rcases he : searchEnd s.data with _ | es
  · rw [parse_report_noEnd s ds d vraw ss st hd hpd hv hs hps he] at h
    exact absurd h (by simp)
  rcases hpe : parseTime es with e | et
  · rw [parse_report_badEnd s ds d vraw ss st es e hd hpd hv hs hps he hpe] at h
    exact absurd h (by simp)
  rcases ho : searchOvertime s.data with _ | ov
  · rw [parse_report_noOvertime s ds d vraw ss st es et hd hpd hv hs hps he hpe ho] at h
    exact absurd h (by simp)
  obtain ⟨hStr, mOpt⟩ := ov
  rcases hk : searchKm s.data with _ | kmStr
  · rw [parse_report_noKm s ds d vraw ss st es et (hStr, mOpt) hd hpd hv hs hps he hpe ho hk] at h
    exact absurd h (by simp)
  rw [parse_report_success s ds d vraw ss st es et hStr mOpt kmStr
    hd hpd hv hs hps he hpe ho hk] at h
  simp only [Prod.mk.injEq, Option.some.injEq, and_true] at h
  exact ⟨ds, d, vraw, ss, st, es, et, hStr, mOpt, kmStr,
    rfl, hpd, rfl, rfl, hps, rfl, hpe, rfl, rfl, h.symm⟩

/-! ### Lemmas about `strip` -/

lemma dropWhile_head?_not (p : Char → Bool) (l : List Char) (c : Char)
    (h : (l.dropWhile p).head? = some c) : p c = false := by
  induction l with
  | nil => simp [List.dropWhile] at h
  | cons a l ih =>
    rw [List.dropWhile_cons] at h
    split at h
    · exact ih h
    · next hp =>
      simp only [List.head?_cons, Option.some.injEq] at h
      subst h
      simpa using hp

lemma strip_head?_not (l : List Char) (c : Char)
    (h : (strip l).head? = some c) : isSpace c = false := by
  unfold strip at h
  rw [List.head?_reverse] at h
  set A := l.dropWhile isSpace with hA
  set B := A.reverse.dropWhile isSpace with hB
  have hBne : B ≠ [] := by
    intro hnil
    rw [hnil] at h
    simp at h
  have hsplit : A.reverse.takeWhile isSpace ++ B = A.reverse :=
    List.takeWhile_append_dropWhile isSpace A.reverse
  have hlast : A.reverse.getLast? = some c := by
    rw [← hsplit, List.getLast?_append_of_ne_nil _ hBne]
    exact h
  rw [List.getLast?_reverse] at hlast
  exact dropWhile_head?_not isSpace l c hlast

lemma strip_getLast?_not (l : List Char) (c : Char)
    (h : (strip l).getLast? = some c) : isSpace c = false := by
  unfold strip at h
  rw [List.getLast?_reverse] at h
  exact dropWhile_head?_not isSpace (l.dropWhile isSpace).reverse c h

/-! ### Lemmas about `searchWith` -/

lemma searchWith_isSome_iff (f : List Char → Option α) (cs : List Char) :
    (searchWith f cs).isSome ↔ ∃ n, (f (cs.drop n)).isSome := by
  induction cs with
  | nil =>
    constructor
    · intro h; exact ⟨0, by simpa [searchWith] using h⟩
    · rintro ⟨n, hn⟩; simpa [searchWith] using by simpa using hn
  | cons c cs ih =>
    rw [searchWith]
    cases hf : f (c :: cs) with
    | some r =>
      simp only [Option.orElse, Option.isSome_some, true_iff]
      exact ⟨0, by simp [hf]⟩
    | none =>
      simp only [Option.orElse]
      rw [ih]
      constructor
      · rintro ⟨n, hn⟩; exact ⟨n + 1, by simpa using hn⟩
      · rintro ⟨n, hn⟩
        cases n with
        | zero => rw [List.drop_zero, hf] at hn; simp at hn
        | succ m => exact ⟨m, by simpa using hn⟩

lemma searchWith_eq_some_first (f : List Char → Option α) (cs : List Char) (r : α)
    (h : searchWith f cs = some r) :
    ∃ n, f (cs.drop n) = some r ∧ ∀ m, m < n → f (cs.drop m) = none := by
  induction cs with
  | nil => exact ⟨0, by simpa [searchWith] using h, fun m hm => absurd hm (by omega)⟩
  | cons c cs ih =>
    rw [searchWith] at h
    cases hf : f (c :: cs) with
    | some r' =>
      rw [hf] at h
      simp only [Option.orElse] at h
      exact ⟨0, by simp [hf, h], fun m hm => absurd hm (by omega)⟩
    | none =>
      rw [hf] at h
      simp only [Option.orElse] at h
      obtain ⟨n, hn, hmin⟩ := ih h
      refine ⟨n + 1, by simpa using hn, fun m hm => ?_⟩
      cases m with
      | zero => simpa using hf
      | succ k => simpa using hmin k (by omega)

/-! ### The claims -/

/-- Claim C1: for every input text containing every required label with valid
value shapes (each search matches and each secondary conversion succeeds),
`parse_report` succeeds, and the record's `work_hours` equals the exact
difference in hours between the end and start clock times on the same
calendar date, with no rollover correction; in particular an end time
numerically earlier than the start time yields a negative `work_hours`. -/
theorem parse_work_hours_exact_diff (s : String) (ds : List Char) (d : Date)
    (vraw ss : List Char) (st : Nat × Nat) (es : List Char) (et : Nat × Nat)
    (hStr : List Char) (mOpt : Option (List Char)) (kmStr : List Char)
    (h1 : searchDate s.data = some ds) (h2 : parseDate ds = .ok d)
    (h3 : searchVehicle s.data = some vraw)
    (h4 : searchStart s.data = some ss) (h5 : parseTime ss = .ok st)
    (h6 : searchEnd s.data = some es) (h7 : parseTime es = .ok et)
    (h8 : searchOvertime s.data = some (hStr, mOpt))
    (h9 : searchKm s.data = some kmStr) :
    ∃ r : Report, parse_report s = (some r, none) ∧
      r.work_hours = ((et.1 : ℚ) + (et.2 : ℚ) / 60) - ((st.1 : ℚ) + (st.2 : ℚ) / 60) ∧
      (et.1 * 60 + et.2 < st.1 * 60 + st.2 → r.work_hours < 0) := by
  refine ⟨_, parse_report_success s ds d vraw ss st es et hStr mOpt kmStr
    h1 h2 h3 h4 h5 h6 h7 h8 h9, ?_, ?_⟩
  · show workHours st et = _
    unfold workHours
    push_cast
    ring
  · intro hlt
    show workHours st et < 0
    unfold workHours
    have h' : ((et.1 * 60 + et.2 : ℕ) : ℤ) - ((st.1 * 60 + st.2 : ℕ) : ℤ) < 0 := by
      rw [sub_neg]
      exact_mod_cast hlt
    exact div_neg_of_neg_of_pos (by exact_mod_cast h') (by norm_num)

/-- Witness for C1 at the overnight example: start 22:00, end 02:00 on the
same nominal date gives `work_hours = 2 - 22 = -20`, negative. -/
theorem parse_work_hours_exact_diff_witness :
    ∃ r : Report, parse_report exOvernight = (some r, none) ∧
      r.work_hours = (((2, 0) : Nat × Nat).1 + (((2, 0) : Nat × Nat).2 : ℚ) / 60) -
        ((((22, 0) : Nat × Nat).1 : ℚ) + (((22, 0) : Nat × Nat).2 : ℚ) / 60) ∧
      (2 * 60 + 0 < 22 * 60 + 0 → r.work_hours < 0) :=
  parse_work_hours_exact_diff exOvernight "15.03.2024".data ⟨2024, 3, 15⟩
    "Газель".data "22:00".data (22, 0) "02:00".data (2, 0) ['1'] (some ['1', '5'])
    "120".data (by decide) (by decide) (by decide) (by decide) (by decide)
    (by decide) (by decide) (by decide) (by decide)

/-- Claim C2: for every input text, `parse_report` returns exactly one
populated side: either a record with a null error, or a null record with an
error message — never both and never neither (and, being a total function
of the input, it raises nothing past its boundary). -/
theorem parse_exactly_one_side (s : String) :
    (∃ r : Report, parse_report s = (some r, none)) ∨
    (∃ e : String, parse_report s = (none, some e)) := by
  rcases hd : searchDate s.data with _ | ds
  · exact .inr ⟨_, parse_report_noDate s hd⟩
  rcases hpd : parseDate ds with e | d
  · exact .inr ⟨_, parse_report_badDate s ds e hd hpd⟩
  rcases hv : searchVehicle s.data with _ | vraw
  · exact .inr ⟨_, parse_report_noVehicle s ds d hd hpd hv⟩
  rcases hs : searchStart s.data with _ | ss
  · exact .inr ⟨_, parse_report_noStart s ds d vraw hd hpd hv hs⟩
  rcases hps : parseTime ss with e | st
  · exact .inr ⟨_, parse_report_badStart s ds d vraw ss e hd hpd hv hs hps⟩
  rcases he : searchEnd s.data with _ | es
  · exact .inr ⟨_, parse_report_noEnd s ds d vraw ss st hd hpd hv hs hps he⟩
  rcases hpe : parseTime es with e | et
  · exact .inr ⟨_, parse_report_badEnd s ds d vraw ss st es e hd hpd hv hs hps he hpe⟩
  rcases ho : searchOvertime s.data with _ | ov
  · exact .inr ⟨_, parse_report_noOvertime s ds d vraw ss st es et hd hpd hv hs hps he hpe ho⟩
  obtain ⟨hStr, mOpt⟩ := ov
  rcases hk : searchKm s.data with _ | kmStr
  · exact .inr ⟨_, parse_report_noKm s ds d vraw ss st es et (hStr, mOpt)
      hd hpd hv hs hps he hpe ho hk⟩
  exact .inl ⟨_, parse_report_success s ds d vraw ss st es et hStr mOpt kmStr
    hd hpd hv hs hps he hpe ho hk⟩

/-- Claim C3: for any input whose extractors miss exactly one of the six
required fields while every other field is found with a valid value,
`parse_report` returns a null record and the error message naming the
missing field. -/
theorem missing_one_field_named_error (s : String) (f : Field)
    (hm : missingF f s.data)
    (hv : ∀ g : Field, g ≠ f → foundValid g s.data) :
    parse_report s = (none, some (errMsg f)) :=
  parse_first_missing s f hm fun g hg =>
    hv g fun he => by subst he; exact lt_irrefl _ hg

/-- Witness for C3: the specification example with the total-distance line
removed fails with the total-distance message. -/
theorem missing_one_field_named_error_witness :
    missingF Field.totalKm exNoKm.data ∧
    parse_report exNoKm = (none, some (errMsg Field.totalKm)) :=
  ⟨by decide, missing_one_field_named_error exNoKm Field.totalKm (by decide)
    (fun g hg => by
      cases g with
      | date => exact ⟨"15.03.2024".data, ⟨2024, 3, 15⟩, by decide, by decide⟩
      | vehicle => exact ⟨"Газель".data, by decide⟩
      | start => exact ⟨"08:00".data, (8, 0), by decide, by decide⟩
      | stop => exact ⟨"16:30".data, (16, 30), by decide, by decide⟩
      | overtime => exact ⟨(['1'], some ['1', '5']), by decide⟩
      | totalKm => exact absurd rfl hg)⟩

/-- Counterexample to claim C4 as stated: the input `"31.02.2024"` is
missing several required fields (vehicle first in extraction order), yet
the returned error is the date-conversion diagnostic, which is not the
message of any missing field — the date label is present but its value
fails conversion, and that error preempts the missing-field report. -/
theorem extraction_order_claim_cex :
    missingF Field.vehicle ("31.02.2024" : String).data ∧
    missingF Field.start ("31.02.2024" : String).data ∧
    missingF Field.totalKm ("31.02.2024" : String).data ∧
    parse_report "31.02.2024" = (none, some "day is out of range for month") ∧
    (∀ f : Field, parse_report "31.02.2024" ≠ (none, some (errMsg f))) := by
  decide

/-- Claim C4, amended: extraction proceeds in the fixed order
date → vehicle → start → end → overtime → total distance and short-circuits
on the first missing required field, provided each earlier field is found
with a valid value (an earlier present-but-invalid value fails with its
conversion diagnostic instead); the single returned error names that first
missing field. -/
theorem first_missing_field_error (s : String) (f : Field)
    (hm : missingF f s.data)
    (hv : ∀ g : Field, fieldIdx g < fieldIdx f → foundValid g s.data) :
    parse_report s = (none, some (errMsg f)) :=
  parse_first_missing s f hm hv

/-- Witness for the amended C4: an input missing both its start time and its
total distance reports only the start time, the earlier field in order. -/
theorem first_missing_field_error_witness :
    missingF Field.start exMissingTwo.data ∧
    missingF Field.totalKm exMissingTwo.data ∧
    parse_report exMissingTwo = (none, some (errMsg Field.start)) :=
  ⟨by decide, by decide, first_missing_field_error exMissingTwo Field.start (by decide)
    (fun g hg => by
      cases g with
      | date => exact ⟨"15.03.2024".data, ⟨2024, 3, 15⟩, by decide, by decide⟩
      | vehicle => exact ⟨"Газель".data, by decide⟩
      | start => exact absurd hg (by decide)
      | stop => exact absurd hg (by decide)
      | overtime => exact absurd hg (by decide)
      | totalKm => exact absurd hg (by decide))⟩

/-- Claim C5: the overtime field is computed as hours + minutes/60 from a
mandatory integer hours group and an optional integer minutes group; an
input whose overtime line is "Переработка 2" yields overtime 2.0, and one
whose overtime line is "Переработка 2 30" yields overtime 2.5 (all other
required fields present and valid). -/
theorem overtime_hours_plus_optional_minutes :
    (∀ (s : String) (ds : List Char) (d : Date) (vraw ss : List Char) (st : Nat × Nat)
        (es : List Char) (et : Nat × Nat) (hStr : List Char) (mOpt : Option (List Char))
        (kmStr : List Char),
      searchDate s.data = some ds → parseDate ds = .ok d →
      searchVehicle s.data = some vraw →
      searchStart s.data = some ss → parseTime ss = .ok st →
      searchEnd s.data = some es → parseTime es = .ok et →
      searchOvertime s.data = some (hStr, mOpt) →
      searchKm s.data = some kmStr →
      ∃ r : Report, parse_report s = (some r, none) ∧
        r.overtime = (digitsToNat hStr : ℚ) + optMinutes mOpt / 60) ∧
    (∃ r : Report, parse_report exOtA = (some r, none) ∧ r.overtime = 2) ∧
    (∃ r : Report, parse_report exOtB = (some r, none) ∧ r.overtime = 5 / 2) := by
  refine ⟨?_, ?_, ?_⟩
  · intro s ds d vraw ss st es et hStr mOpt kmStr h1 h2 h3 h4 h5 h6 h7 h8 h9
    exact ⟨_, parse_report_success s ds d vraw ss st es et hStr mOpt kmStr
      h1 h2 h3 h4 h5 h6 h7 h8 h9, rfl⟩
  · refine ⟨_, parse_report_success exOtA "15.03.2024".data ⟨2024, 3, 15⟩ "Газель".data
      "08:00".data (8, 0) "16:30".data (16, 30) ['2'] none "120".data
      (by decide) (by decide) (by decide) (by decide) (by decide) (by decide)
      (by decide) (by decide) (by decide), ?_⟩
    show overtimeVal ['2'] none = 2
    rw [overtimeVal, optMinutes, show digitsToNat ['2'] = 2 from rfl]
    norm_num
  · refine ⟨_, parse_report_success exOtB "15.03.2024".data ⟨2024, 3, 15⟩ "Газель".data
      "08:00".data (8, 0) "16:30".data (16, 30) ['2'] (some ['3', '0']) "120".data
      (by decide) (by decide) (by decide) (by decide) (by decide) (by decide)
      (by decide) (by decide) (by decide), ?_⟩
    show overtimeVal ['2'] (some ['3', '0']) = 5 / 2
    rw [overtimeVal, optMinutes, show digitsToNat ['2'] = 2 from rfl,
      show digitsToNat ['3', '0'] = 30 from rfl]
    norm_num

/-- Witness for C5, applying the general part at the hours-and-minutes
example. -/
theorem overtime_hours_plus_optional_minutes_witness :
    ∃ r : Report, parse_report exOtB = (some r, none) ∧
      r.overtime = (digitsToNat ['2'] : ℚ) + optMinutes (some ['3', '0']) / 60 :=
  overtime_hours_plus_optional_minutes.1 exOtB "15.03.2024".data ⟨2024, 3, 15⟩
    "Газель".data "08:00".data (8, 0) "16:30".data (16, 30) ['2'] (some ['3', '0'])
    "120".data (by decide) (by decide) (by decide) (by decide) (by decide)
    (by decide) (by decide) (by decide) (by decide)

/-- Claim C6: when the MKAD-distance search finds nothing but all six
required fields are found with valid values, `parse_report` succeeds and
the record's `km_mkad` equals 0. -/
theorem absent_mkad_defaults_zero (s : String) (ds : List Char) (d : Date)
    (vraw ss : List Char) (st : Nat × Nat) (es : List Char) (et : Nat × Nat)
    (hStr : List Char) (mOpt : Option (List Char)) (kmStr : List Char)
    (h1 : searchDate s.data = some ds) (h2 : parseDate ds = .ok d)
    (h3 : searchVehicle s.data = some vraw)
    (h4 : searchStart s.data = some ss) (h5 : parseTime ss = .ok st)
    (h6 : searchEnd s.data = some es) (h7 : parseTime es = .ok et)
    (h8 : searchOvertime s.data = some (hStr, mOpt))
    (h9 : searchKm s.data = some kmStr)
    (h10 : searchKmMkad s.data = none) :
    ∃ r : Report, parse_report s = (some r, none) ∧ r.km_mkad = 0 :=
  ⟨_, parse_report_success s ds d vraw ss st es et hStr mOpt kmStr
    h1 h2 h3 h4 h5 h6 h7 h8 h9, by
      show mkadVal s.data = 0
      simp only [mkadVal, h10]⟩

/-- Witness for C6 at the example without an MKAD line. -/
theorem absent_mkad_defaults_zero_witness :
    ∃ r : Report, parse_report exNoMkad = (some r, none) ∧ r.km_mkad = 0 :=
  absent_mkad_defaults_zero exNoMkad "15.03.2024".data ⟨2024, 3, 15⟩ "Газель".data
    "08:00".data (8, 0) "16:30".data (16, 30) ['1'] (some ['1', '5']) "120".data
    (by decide) (by decide) (by decide) (by decide) (by decide) (by decide)
    (by decide) (by decide) (by decide) (by decide)

/-- Claim C7: a field value that matches the expected lexical shape but is
semantically invalid is accepted by the pattern matcher but makes
`parse_report` fail with the underlying conversion diagnostic as the error
message and no record — for the date, the start time and the end time; the
time strings "25:99" and "08:99" produce exactly the two CPython strptime
diagnostics (format mismatch for an impossible hour, unconverted trailing
data for a valid hour with impossible minutes). -/
theorem shape_ok_conversion_fails :
    (∀ (s : String) (ds : List Char) (e : String),
      searchDate s.data = some ds → parseDate ds = .error e →
      parse_report s = (none, some e)) ∧
    (∀ (s : String) (ds : List Char) (d : Date) (vraw ss : List Char) (e : String),
      searchDate s.data = some ds → parseDate ds = .ok d →
      searchVehicle s.data = some vraw →
      searchStart s.data = some ss → parseTime ss = .error e →
      parse_report s = (none, some e)) ∧
    (∀ (s : String) (ds : List Char) (d : Date) (vraw ss : List Char) (st : Nat × Nat)
        (es : List Char) (e : String),
      searchDate s.data = some ds → parseDate ds = .ok d →
      searchVehicle s.data = some vraw →
      searchStart s.data = some ss → parseTime ss = .ok st →
      searchEnd s.data = some es → parseTime es = .error e →
      parse_report s = (none, some e)) ∧
    parseTime "25:99".data =
      .error "time data '25:99' does not match format '%H:%M'" ∧
    parseTime "08:99".data = .error "unconverted data remains: 9" :=
  ⟨fun s ds e h1 h2 => parse_report_badDate s ds e h1 h2,
   fun s ds d vraw ss e h1 h2 h3 h4 h5 =>
     parse_report_badStart s ds d vraw ss e h1 h2 h3 h4 h5,
   fun s ds d vraw ss st es e h1 h2 h3 h4 h5 h6 h7 =>
     parse_report_badEnd s ds d vraw ss st es e h1 h2 h3 h4 h5 h6 h7,
   by decide, by decide⟩

/-- Witness for C7: the report whose start-time line reads
"Начало смены 25:99" fails with the strptime diagnostic. -/
theorem shape_ok_conversion_fails_witness :
    parse_report exBadStart =
      (none, some "time data '25:99' does not match format '%H:%M'") :=
  shape_ok_conversion_fails.2.1 exBadStart "15.03.2024".data ⟨2024, 3, 15⟩
    "Газель".data "25:99".data "time data '25:99' does not match format '%H:%M'"
    (by decide) (by decide) (by decide) (by decide) (by decide)

/-- Claim C8: in every successfully built record, the vehicle field is the
free text captured after the vehicle label, trimmed of surrounding
whitespace: no leading or trailing whitespace character remains. -/
theorem vehicle_stripped (s : String) (r : Report)
    (h : parse_report s = (some r, none)) :
    ∃ raw, searchVehicle s.data = some raw ∧ r.vehicle = String.mk (strip raw) ∧
      (∀ c ∈ r.vehicle.data.head?, isSpace c = false) ∧
      (∀ c ∈ r.vehicle.data.getLast?, isSpace c = false) := by
  obtain ⟨ds, d, vraw, ss, st, es, et, hStr, mOpt, kmStr,
    h1, h2, h3, h4, h5, h6, h7, h8, h9, hr⟩ := parse_report_success_inv s r h
  subst hr
  refine ⟨vraw, h3, rfl, ?_, ?_⟩
  · intro c hc
    exact strip_head?_not vraw c (by simpa using hc)
  · intro c hc
    exact strip_getLast?_not vraw c (by simpa using hc)

/-- Witness for C8 at the full specification example. -/
theorem vehicle_stripped_witness :
    ∃ r : Report, parse_report exFull = (some r, none) ∧
      ∃ raw, searchVehicle exFull.data = some raw ∧
        r.vehicle = String.mk (strip raw) ∧
        (∀ c ∈ r.vehicle.data.head?, isSpace c = false) ∧
        (∀ c ∈ r.vehicle.data.getLast?, isSpace c = false) :=
  have h := parse_report_success exFull "15.03.2024".data ⟨2024, 3, 15⟩ "Газель".data
    "08:00".data (8, 0) "16:30".data (16, 30) ['1'] (some ['1', '5']) "120".data
    (by decide) (by decide) (by decide) (by decide) (by decide) (by decide)
    (by decide) (by decide) (by decide)
  ⟨_, h, vehicle_stripped exFull _ h⟩

/-- Counterexample to claim C9 as stated: in "15.03.20245" the shape
`DD.MM.YYYY` occurs only embedded in a longer digit run (the trailing
"20245" has five digits), so the text contains no bare token, yet the date
extractor does find a date. -/
theorem date_bare_token_claim_cex :
    (searchDate ("15.03.20245" : String).data).isSome = true ∧
    hasBareDateToken ("15.03.20245" : String).data = false := by
  decide

/-- Claim C9, amended: the date extractor matches a `DD.MM.YYYY`-shaped
substring anywhere in the text with no label required — even one embedded
in a longer digit run — and a date is found if and only if such a shape
starts at some position; the occurrence at the leftmost matching position
is the one used. -/
theorem date_found_iff_shape_anywhere (cs : List Char) :
    ((searchDate cs).isSome ↔ ∃ n, (tryDate (cs.drop n)).isSome) ∧
    (∀ r, searchDate cs = some r →
      ∃ n, tryDate (cs.drop n) = some r ∧ ∀ m, m < n → tryDate (cs.drop m) = none) :=
  ⟨searchWith_isSome_iff tryDate cs, fun r h => searchWith_eq_some_first tryDate cs r h⟩

/-- Witness for the amended C9 at "15.03.20245": a date is found, and the
match at position 0 is the one used. -/
theorem date_found_iff_shape_anywhere_witness :
    (searchDate ("15.03.20245" : String).data).isSome = true ∧
    (∃ n, tryDate (List.drop n ("15.03.20245" : String).data) = some "15.03.2024".data ∧
      ∀ m, m < n → tryDate (List.drop m ("15.03.20245" : String).data) = none) :=
  ⟨(date_found_iff_shape_anywhere ("15.03.20245" : String).data).1.mpr ⟨0, by decide⟩,
   (date_found_iff_shape_anywhere ("15.03.20245" : String).data).2 "15.03.2024".data
     (by decide)⟩

/-- Claim C10: for every input in which the MKAD-distance label is present
but its pattern finds no match (the label is followed by a value that is
not an integer), `parse_report` treats the field exactly as if it were
absent: given all required fields valid, parsing still succeeds with
`km_mkad` silently set to 0 and no error for the malformed value; at the
concrete malformed example the result is the very record of the input
without the MKAD line. -/
theorem mkad_malformed_treated_as_absent :
    (∀ (s : String) (ds : List Char) (d : Date) (vraw ss : List Char) (st : Nat × Nat)
        (es : List Char) (et : Nat × Nat) (hStr : List Char) (mOpt : Option (List Char))
        (kmStr : List Char) (n : Nat),
      (matchLit "Пробег за МКАД".data (s.data.drop n)).isSome = true →
      searchKmMkad s.data = none →
      searchDate s.data = some ds → parseDate ds = .ok d →
      searchVehicle s.data = some vraw →
      searchStart s.data = some ss → parseTime ss = .ok st →
      searchEnd s.data = some es → parseTime es = .ok et →
      searchOvertime s.data = some (hStr, mOpt) →
      searchKm s.data = some kmStr →
      ∃ r : Report, parse_report s = (some r, none) ∧ r.km_mkad = 0) ∧
    parse_report exMkadBad = parse_report exNoMkad := by
  constructor
  · intro s ds d vraw ss st es et hStr mOpt kmStr n hlab h10 h1 h2 h3 h4 h5 h6 h7 h8 h9
    exact ⟨_, parse_report_success s ds d vraw ss st es et hStr mOpt kmStr
      h1 h2 h3 h4 h5 h6 h7 h8 h9, by
        show mkadVal s.data = 0
        simp only [mkadVal, h10]⟩
  · have e1 := parse_report_success exMkadBad "15.03.2024".data ⟨2024, 3, 15⟩
      "Газель".data "08:00".data (8, 0) "16:30".data (16, 30) ['1'] (some ['1', '5'])
      "120".data (by decide) (by decide) (by decide) (by decide) (by decide)
      (by decide) (by decide) (by decide) (by decide)
    have e2 := parse_report_success exNoMkad "15.03.2024".data ⟨2024, 3, 15⟩
      "Газель".data "08:00".data (8, 0) "16:30".data (16, 30) ['1'] (some ['1', '5'])
      "120".data (by decide) (by decide) (by decide) (by decide) (by decide)
      (by decide) (by decide) (by decide) (by decide)
    have hm1 : mkadVal exMkadBad.data = 0 := by
      simp only [mkadVal, show searchKmMkad exMkadBad.data = none from by decide]
    have hm2 : mkadVal exNoMkad.data = 0 := by
      simp only [mkadVal, show searchKmMkad exNoMkad.data = none from by decide]
    rw [e1, e2, hm1, hm2]

/-- Witness for C10, applying the universal part at the example whose MKAD
line reads "Пробег за МКАД abc": the label sits at position 96, its pattern
finds no match, and parsing succeeds with `km_mkad` 0. -/
theorem mkad_malformed_treated_as_absent_witness :
    ∃ r : Report, parse_report exMkadBad = (some r, none) ∧ r.km_mkad = 0 :=
  mkad_malformed_treated_as_absent.1 exMkadBad "15.03.2024".data ⟨2024, 3, 15⟩
    "Газель".data "08:00".data (8, 0) "16:30".data (16, 30) ['1'] (some ['1', '5'])
    "120".data 96 (by decide) (by decide) (by decide) (by decide) (by decide)
    (by decide) (by decide) (by decide) (by decide) (by decide) (by decide)

end ShiftReport
